import Mathlib

/-!
Verification development for the media-control-bridge repository.

The definitions below are a shallow embedding of the media-state
reconciliation engine:

* `MacMediaController.checkMediaState` and its helpers embed
  `src/src/main/media/mac.js` (the macOS polling cycle, track
  fingerprint dedup, the asynchronous artwork continuation, and the
  control commands);
* `MediaInterface.handlePlatformEvent` and `MediaInterface.getFullStatus`
  embed `src/src/main/media/index.js` (the engine snapshot);
* `WindowsMediaController` embeds the control-command path of
  `src/src/main/media/windows.js`;
* `WebSocketServer.wsOnConnect` embeds the on-connect catch-up push of
  the WebSocket server;
* `Sys` composes the macOS controller with the engine snapshot, with
  the artwork continuation modelled as a pending task that may complete
  at any later step.

Adapter (AppleScript / helper process) calls are modelled by their
results: an `Option` input where `none` is the call failing, matching
the `catch` handler of the corresponding source function.
-/

namespace MCB

/-- Track metadata as produced by `fetchTrackInfo` in mac.js:
`{ title, artist, album, duration, artwork }`. -/
structure TrackInfo where
  title : String
  artist : String
  album : String
  duration : Nat
  artwork : Option String
deriving Repr, DecidableEq

/-- Playback state as produced by `fetchPlaybackState` in mac.js:
`{ isPlaying, position }` (position in milliseconds). -/
structure PlaybackState where
  isPlaying : Bool
  position : Nat
deriving Repr, DecidableEq

/-- The platform-controller state of mac.js (`MacMediaController`):
`currentTrack`, `currentState`, `currentApp`, `lastTrackName`.
The `isChecking` / `isRunning` scheduling flags are outside this model. -/
structure MacState where
  currentTrack : Option TrackInfo
  currentState : PlaybackState
  currentApp : Option String
  lastTrackName : Option String
deriving Repr, DecidableEq

/-- The constructor state of `MacMediaController`. -/
def macInit : MacState :=
  { currentTrack := none
    currentState := { isPlaying := false, position := 0 }
    currentApp := none
    lastTrackName := none }

/-- Events emitted by the platform controller (`this.emit(...)` in
mac.js).  `track_changed` carries `{ ...trackInfo, appName }`. -/
inductive MediaEvent where
  | media_connected (appName : String)
  | media_disconnected
  | track_changed (track : TrackInfo) (appName : String)
  | playback_state_changed (st : PlaybackState)
deriving Repr, DecidableEq

/-- JavaScript truthiness test used on app identifiers (`if (!app)`;
`null` and the empty string are falsy). -/
def jsFalsy : Option String → Bool
  | none => true
  | some s => s = ""

/-- The `catch` branch of `fetchPlaybackState` in mac.js returns
`{ isPlaying: false, position: 0 }`; a successful fetch returns the
parsed state.  The argument is the outcome of the AppleScript call
(`none` = the call failed). -/
def fetchPlaybackStateResult : Option PlaybackState → PlaybackState
  | some st => st
  | none => { isPlaying := false, position := 0 }

/-- The `catch` branch of `fetchTrackInfo` in mac.js returns the
`Unknown` placeholder record. -/
def unknownTrack : TrackInfo :=
  { title := "Unknown", artist := "Unknown Artist", album := "Unknown Album"
    duration := 0, artwork := none }

/-- The `fetchTrackInfo` outcome: the parsed record, or the placeholder when
the AppleScript call failed. -/
def fetchTrackInfoResult : Option TrackInfo → TrackInfo
  | some t => t
  | none => unknownTrack

/-- Embedding of `hasTrackChanged` from mac.js: a new track counts as changed when no
track is stored, or when title, artist or album differ. -/
def hasTrackChanged (s : MacState) (newTrack : TrackInfo) : Bool :=
  match s.currentTrack with
  | none => true
  | some cur =>
    cur.title ≠ newTrack.title ∨ cur.artist ≠ newTrack.artist ∨
      cur.album ≠ newTrack.album

/-- The artwork continuation scheduled by `checkMediaState` captures the
freshly fetched `trackInfo` and the cycle's `app` variable. -/
structure ArtworkTask where
  track : TrackInfo
  appName : String
deriving Repr, DecidableEq

/-- The adapter-side inputs of one poll cycle of `checkMediaState`:
the result of `getCurrentMediaApp`, of `getQuickTrackName` (`none` is
both "call failed" and "app without a quick probe"), and the outcomes
of `fetchPlaybackState` and `fetchTrackInfo` (`none` = call failed). -/
structure CycleInput where
  resolvedApp : Option String
  quickName : Option String
  playbackFetch : Option PlaybackState
  trackFetch : Option TrackInfo
deriving Repr, DecidableEq

/-- Result of one `checkMediaState` cycle: the new controller state, the
events emitted synchronously (in emission order), whether the full
metadata fetch ran, and the artwork continuation scheduled, if any. -/
structure CycleOutput where
  state : MacState
  events : List MediaEvent
  didFullFetch : Bool
  artworkScheduled : Option ArtworkTask
deriving Repr, DecidableEq

/-- One poll cycle of `checkMediaState` from mac.js.  The disconnect
branch (`if (!app)`) clears the app, track and fingerprint and emits
`media_disconnected` only on a non-null-to-null transition.  The
connected branch runs the quick-fingerprint comparison, fetches full
metadata only when the fingerprint differs, and emits, in order,
`media_connected` (if the app changed), `track_changed` (if the track
changed, also scheduling the artwork continuation), and
`playback_state_changed` (if the is-playing flag or position differ). -/
def checkMediaState (s : MacState) (inp : CycleInput) : CycleOutput :=
  if jsFalsy inp.resolvedApp then
    if s.currentApp.isSome then
      { state := { currentTrack := none, currentState := s.currentState
                   currentApp := none, lastTrackName := none }
        events := [MediaEvent.media_disconnected]
        didFullFetch := false, artworkScheduled := none }
    else
      { state := s, events := [], didFullFetch := false, artworkScheduled := none }
  else
    let a := inp.resolvedApp.getD ""
    let playbackState := fetchPlaybackStateResult inp.playbackFetch
    let doFetch := inp.quickName ≠ s.lastTrackName
    let trackInfo : Option TrackInfo :=
      if doFetch then some (fetchTrackInfoResult inp.trackFetch) else none
    let lastTrackName' := if doFetch then inp.quickName else s.lastTrackName
    let appChanged := s.currentApp ≠ some a
    let appEvents := if appChanged then [MediaEvent.media_connected a] else []
    let tr : Option TrackInfo :=
      match trackInfo with
      | some t => if hasTrackChanged s t then some t else none
      | none => none
    let currentTrack' := match tr with
      | some t => some t
      | none => s.currentTrack
    let trackEvents := match tr with
      | some t => [MediaEvent.track_changed t a]
      | none => []
    let artTask := match tr with
      | some t => some (ArtworkTask.mk t a)
      | none => none
    let pbChanged :=
      s.currentState.isPlaying ≠ playbackState.isPlaying ∨
        s.currentState.position ≠ playbackState.position
    let pbEvents := if pbChanged then [MediaEvent.playback_state_changed playbackState] else []
    let currentState' := if pbChanged then playbackState else s.currentState
    { state := { currentTrack := currentTrack', currentState := currentState'
                 currentApp := if appChanged then some a else s.currentApp
                 lastTrackName := lastTrackName' }
      events := appEvents ++ trackEvents ++ pbEvents
      didFullFetch := doFetch
      artworkScheduled := artTask }

/-- The `.then` continuation attached to `fetchArtworkUrl` in
`checkMediaState`: when the fetch yields a URL and the controller's
current track still has the captured title, the stored track record is
enriched with the artwork and a follow-up `track_changed` is emitted
with the captured `app` name.  The argument `url` is the outcome of the
artwork fetch (`none` = failure or no artwork; `fetchArtworkUrl` maps
an empty string to `null`). -/
def artworkContinuation (s : MacState) (task : ArtworkTask) (url : Option String) :
    MacState × List MediaEvent :=
  match url, s.currentTrack with
  | some u, some cur =>
    if u ≠ "" ∧ cur.title = task.track.title then
      let updated := { cur with artwork := some u }
      ({ s with currentTrack := some updated },
        [MediaEvent.track_changed updated task.appName])
    else (s, [])
  | _, _ => (s, [])

/-- The `currentState` record of `MediaInterface` in index.js:
`{ isPlaying, position, connected }`. -/
structure MIPlayback where
  isPlaying : Bool
  position : Nat
  connected : Bool
deriving Repr, DecidableEq

/-- The engine snapshot owned by `MediaInterface` in index.js.  Its
`currentTrack` stores the `track_changed` event payload, which is the
controller's track record spread together with `appName`. -/
structure MIState where
  currentTrack : Option (TrackInfo × String)
  currentState : MIPlayback
  currentApp : Option String
deriving Repr, DecidableEq

/-- The constructor state of `MediaInterface`. -/
def miInit : MIState :=
  { currentTrack := none
    currentState := { isPlaying := false, position := 0, connected := false }
    currentApp := none }

/-- Embedding of `handlePlatformEvent` from index.js.  `track_changed` stores the
payload unconditionally (the payload object is always truthy);
`playback_state_changed` updates `isPlaying` and `position`;
`media_connected` requires a truthy `appName`; `media_disconnected`
clears `currentApp`, `connected` and `currentTrack` — and nothing
else. -/
def handlePlatformEvent (s : MIState) : MediaEvent → MIState
  | MediaEvent.track_changed t app =>
    { s with currentTrack := some (t, app) }
  | MediaEvent.playback_state_changed st =>
    { s with currentState :=
        { s.currentState with isPlaying := st.isPlaying, position := st.position } }
  | MediaEvent.media_connected app =>
    if app ≠ "" then
      { s with currentApp := some app
               currentState := { s.currentState with connected := true } }
    else s
  | MediaEvent.media_disconnected =>
    { s with currentApp := none
             currentTrack := none
             currentState := { s.currentState with connected := false } }

/-- Delivery of a list of platform events to the engine, in emission
order (the `this.emit` callback is synchronous). -/
def deliver (s : MIState) (evs : List MediaEvent) : MIState :=
  evs.foldl handlePlatformEvent s

/-- The `track` object built by `getFullStatus` (and served by
`GET /status`): metadata from the stored track record, `position` from
the live playback state. -/
structure TrackOut where
  title : String
  artist : String
  album : String
  artwork : Option String
  duration : Nat
  position : Nat
deriving Repr, DecidableEq

/-- The body returned by `getFullStatus` in index.js. -/
structure FullStatus where
  connected : Bool
  appName : Option String
  isPlaying : Bool
  track : Option TrackOut
deriving Repr, DecidableEq

/-- Embedding of `getFullStatus` from index.js, on the mac.js controller path (that
controller defines no `getDisplayAppName`, so the display name falls
back to the engine's own `currentApp`). -/
def getFullStatus (s : MIState) : FullStatus :=
  { connected := s.currentState.connected
    appName := s.currentApp
    isPlaying := s.currentState.isPlaying
    track := s.currentTrack.map (fun tc =>
      { title := tc.1.title, artist := tc.1.artist, album := tc.1.album
        artwork := tc.1.artwork, duration := tc.1.duration
        position := s.currentState.position }) }

/-- The composed system: the macOS platform controller, its pending
artwork continuations, and the engine snapshot fed by its events. -/
structure SysState where
  ctrl : MacState
  pending : List ArtworkTask
  mi : MIState
deriving Repr, DecidableEq

/-- The start state of the composed system. -/
def sysInit : SysState :=
  { ctrl := macInit, pending := [], mi := miInit }

/-- One step of the composed system: either a poll cycle with the given
adapter outcomes, or the completion of the pending artwork continuation
at index `i` with the given fetch outcome (the continuation may run at
any later step, including after a disconnect). -/
inductive SysStep where
  | poll (inp : CycleInput)
  | artwork (i : Nat) (url : Option String)
deriving Repr, DecidableEq

/-- Execute one system step, threading the emitted events into the
engine and accumulating them in the trace. -/
def sysStepRun (p : SysState × List MediaEvent) (st : SysStep) :
    SysState × List MediaEvent :=
  match st with
  | SysStep.poll inp =>
    let out := checkMediaState p.1.ctrl inp
    ({ ctrl := out.state
       pending := p.1.pending ++ out.artworkScheduled.toList
       mi := deliver p.1.mi out.events },
      p.2 ++ out.events)
  | SysStep.artwork i url =>
    match p.1.pending[i]? with
    | none => p
    | some task =>
      let r := artworkContinuation p.1.ctrl task url
      ({ ctrl := r.1
         pending := p.1.pending.eraseIdx i
         mi := deliver p.1.mi r.2 },
        p.2 ++ r.2)

/-- Run a sequence of system steps from the start state, returning the
final state and the full event trace. -/
def sysRun (steps : List SysStep) : SysState × List MediaEvent :=
  steps.foldl sysStepRun (sysInit, [])

/-- The five control commands of the control surface. -/
inductive Command where
  | play
  | pause
  | toggle
  | next
  | previous
deriving Repr, DecidableEq

/-- The structured result returned by a control command:
`{ success, error?, isPlaying? }`. -/
structure CommandResult where
  success : Bool
  error : Option String
  isPlaying : Option Bool
deriving Repr, DecidableEq

/-- Observable outcome of running a control command: its result, whether
any backend (AppleScript / helper) control call was issued, and how many
out-of-cycle playback-state fetches it performed. -/
structure CommandRun where
  result : CommandResult
  backendCalled : Bool
  playbackFetches : Nat
deriving Repr, DecidableEq

/-- A control command of mac.js (`play`, `pause`, `toggle`, `next`,
`previous`).  Each first checks `if (!this.currentApp)` and fails with
"No media app active" without touching the backend; otherwise it issues
the AppleScript (or media-key) call, whose failure (`ctrlErr`) is caught
and surfaced as `{ success: false, error }`.  `toggle` additionally
waits 100ms and re-fetches the playback state (outcome `postFetch`),
reporting the re-fetched `isPlaying`. -/
def macCommand (s : MacState) (cmd : Command) (ctrlErr : Option String)
    (postFetch : Option PlaybackState) : CommandRun :=
  if jsFalsy s.currentApp then
    { result := { success := false, error := some "No media app active", isPlaying := none }
      backendCalled := false, playbackFetches := 0 }
  else
    match ctrlErr with
    | some m =>
      { result := { success := false, error := some m, isPlaying := none }
        backendCalled := true, playbackFetches := 0 }
    | none =>
      match cmd with
      | Command.toggle =>
        { result := { success := true, error := none
                      isPlaying := some (fetchPlaybackStateResult postFetch).isPlaying }
          backendCalled := true, playbackFetches := 1 }
      | _ =>
        { result := { success := true, error := none, isPlaying := none }
          backendCalled := true, playbackFetches := 0 }

/-- The state of `WindowsMediaController` relevant to commands. -/
structure WinState where
  currentApp : Option String
  isPlaying : Bool
  position : Nat
deriving Repr, DecidableEq

/-- A control command of windows.js.  There is no null-app guard: the
helper process is spawned unconditionally (`executeCommand`), and a
rejected promise is caught as `{ success: false, error }`.  On success,
`toggle` returns `{ ...result, isPlaying: !this.currentState.isPlaying }`
— the negation of the cached flag; no playback-state re-fetch is
performed.  `execResult` is the helper call outcome. -/
def winCommand (s : WinState) (cmd : Command)
    (execResult : Except String CommandResult) : CommandRun :=
  match execResult with
  | Except.error m =>
    { result := { success := false, error := some m, isPlaying := none }
      backendCalled := true, playbackFetches := 0 }
  | Except.ok r =>
    match cmd with
    | Command.toggle =>
      { result := { r with isPlaying := some (!s.isPlaying) }
        backendCalled := true, playbackFetches := 0 }
    | _ =>
      { result := r, backendCalled := true, playbackFetches := 0 }

/-- The computation `config.get` or-else `auto` from
`getCurrentMediaApp`: an unset or empty configuration value falls back
to `"auto"`. -/
def normalizedPreferred : Option String → String
  | none => "auto"
  | some s => if s = "" then "auto" else s

/-- Adapter-side inputs of `getCurrentMediaApp`: the raw configuration
value, the `isAppPlaying` probe (whose own `catch` already maps a failed
AppleScript call to `false`), and whether anything else inside the
`try` block throws (reaching the outer `catch`, which returns `null`). -/
structure AppResolveInput where
  cfgPreferred : Option String
  appPlaying : String → Bool
  throws : Bool

/-- Embedding of `getCurrentMediaApp` from mac.js.  With a preferred app configured
it probes only that app.  In auto mode it fast-paths the current app
(if truthy and not "System"), then scans Spotify and Music, and finally
falls back to "System".  The outer `catch` returns `null`. -/
def getCurrentMediaApp (currentApp : Option String) (inp : AppResolveInput) :
    Option String :=
  if inp.throws then none
  else
    let preferred := normalizedPreferred inp.cfgPreferred
    if preferred ≠ "auto" then
      if inp.appPlaying preferred then some preferred else none
    else
      let fast : Option String :=
        match currentApp with
        | some c => if c ≠ "" ∧ c ≠ "System" ∧ inp.appPlaying c then some c else none
        | none => none
      match fast with
      | some c => some c
      | none =>
        if inp.appPlaying "Spotify" then some "Spotify"
        else if inp.appPlaying "Music" then some "Music"
        else some "System"

/-- A full poll cycle including app resolution: `getCurrentMediaApp`
followed by `checkMediaState` on its result. -/
def cycleWithResolution (s : MacState) (res : AppResolveInput)
    (quickName : Option String) (playbackFetch : Option PlaybackState)
    (trackFetch : Option TrackInfo) : CycleOutput :=
  checkMediaState s
    { resolvedApp := getCurrentMediaApp s.currentApp res
      quickName := quickName
      playbackFetch := playbackFetch
      trackFetch := trackFetch }

/-- Iterate `checkMediaState` with a constant adapter report, returning
the final state, the concatenated cycle events, and the number of full
metadata fetches performed. -/
def runCycles (s : MacState) (inp : CycleInput) : Nat → MacState × List MediaEvent × Nat
  | 0 => (s, [], 0)
  | Nat.succ n =>
    let out := checkMediaState s inp
    let rest := runCycles out.state inp n
    (rest.1, out.events ++ rest.2.1, (if out.didFullFetch then 1 else 0) + rest.2.2)

/-- Number of `track_changed` events in a trace. -/
def countTrackChanged (evs : List MediaEvent) : Nat :=
  evs.countP (fun e => match e with
    | MediaEvent.track_changed _ _ => true
    | _ => false)

/-- The on-connect catch-up push of the WebSocket server reads
`status.position`, a property that `getFullStatus` does not set; in
JavaScript the read yields `undefined` (dropped by JSON
serialization).  This helper models that read. -/
def statusTopLevelPosition (_status : FullStatus) : Option Nat := none

/-- A WebSocket message `{ event, data }` as pushed to a client. -/
inductive WsMessage where
  | connection_status (connected : Bool) (appName : Option String)
  | track_changed (data : TrackOut)
  | playback_state_changed (isPlaying : Bool) (position : Option Nat)
deriving Repr, DecidableEq

/-- The catch-up sequence the WebSocket server pushes to a newly
connected client: `connection_status` from the current
snapshot, then `track_changed` if a track is present, then
`playback_state_changed` if connected, the latter carrying
`status.isPlaying` and `status.position`. -/
def wsOnConnect (status : FullStatus) : List WsMessage :=
  [WsMessage.connection_status status.connected status.appName]
    ++ (match status.track with
        | some t => [WsMessage.track_changed t]
        | none => [])
    ++ (if status.connected then
          [WsMessage.playback_state_changed status.isPlaying
            (statusTopLevelPosition status)]
        else [])

/-! ## Concrete fixtures used by witnesses and counterexamples -/

/-- The track of the spec's end-to-end scenario A. -/
def agnes : TrackInfo :=
  { title := "Agnes", artist := "Glass Animals", album := "How To Be A Human Being"
    duration := 271672, artwork := none }

/-- A normally completing cycle report: Spotify playing `agnes` at
45000ms, all adapter calls succeeding. -/
def inpGood : CycleInput :=
  { resolvedApp := some "Spotify", quickName := some "Agnes"
    playbackFetch := some { isPlaying := true, position := 45000 }
    trackFetch := some agnes }

/-- The same cycle report, except the playback-state AppleScript call
fails. -/
def inpFail : CycleInput :=
  { resolvedApp := some "Spotify", quickName := some "Agnes"
    playbackFetch := none, trackFetch := some agnes }

/-- A cycle in which app resolution yields nothing. -/
def inpDisc : CycleInput :=
  { resolvedApp := none, quickName := none
    playbackFetch := none, trackFetch := none }

/-! ## C10 — `getFullStatus` takes `track.position` from the live
playback state and the other track fields from the stored record -/

/-- C10: for every snapshot with a stored track, the `track` object of
`getFullStatus` carries `position` from the live playback state
(`currentState.position`) and title, artist, album, artwork and
duration unchanged from the stored track record. -/
theorem c10_status_track_position_live (s : MIState) (t : TrackInfo) (app : String)
    (h : s.currentTrack = some (t, app)) :
    (getFullStatus s).track =
      some { title := t.title, artist := t.artist, album := t.album
             artwork := t.artwork, duration := t.duration
             position := s.currentState.position } := by
  simp [getFullStatus, h]

/-- Witness for C10 at a concrete snapshot. -/
theorem c10_witness :
    (getFullStatus { currentTrack := some (agnes, "Spotify")
                     currentState := { isPlaying := true, position := 45000, connected := true }
                     currentApp := some "Spotify" }).track =
      some { title := "Agnes", artist := "Glass Animals"
             album := "How To Be A Human Being", artwork := none
             duration := 271672, position := 45000 } := by
  exact c10_status_track_position_live _ agnes "Spotify" rfl

/-! ## C7 — position changes are never deduplicated -/

/-- C7: in every poll cycle with an app resolved and the playback fetch
succeeding, if the Snapshot has `isPlaying = true` and the backend
reports a position different from the Snapshot's, a
`playback_state_changed` event carrying the new state is emitted and
the Snapshot adopts it. -/
theorem c7_position_change_always_emitted (s : MacState) (inp : CycleInput)
    (a : String) (p : PlaybackState)
    (hres : inp.resolvedApp = some a) (hne : a ≠ "")
    (hfetch : inp.playbackFetch = some p)
    (_hplay : s.currentState.isPlaying = true)
    (hpos : p.position ≠ s.currentState.position) :
    MediaEvent.playback_state_changed p ∈ (checkMediaState s inp).events ∧
      (checkMediaState s inp).state.currentState = p := by
  have hfalsy : jsFalsy inp.resolvedApp = false := by
    simp [jsFalsy, hres, hne]
  have hpb : s.currentState.isPlaying ≠ p.isPlaying ∨
      s.currentState.position ≠ p.position := Or.inr (Ne.symm hpos)
  simp only [checkMediaState, hfalsy, Bool.false_eq_true, if_false,
    fetchPlaybackStateResult, hfetch]
  constructor
  · simp [hpb]
  · simp [hpb]

/-- Witness for C7: Spotify playing, position drifts 45000 → 46000. -/
theorem c7_witness :
    MediaEvent.playback_state_changed { isPlaying := true, position := 46000 } ∈
      (checkMediaState
        { currentTrack := some agnes
          currentState := { isPlaying := true, position := 45000 }
          currentApp := some "Spotify", lastTrackName := some "Agnes" }
        { resolvedApp := some "Spotify", quickName := some "Agnes"
          playbackFetch := some { isPlaying := true, position := 46000 }
          trackFetch := some agnes }).events := by
  exact (c7_position_change_always_emitted _ _ "Spotify"
    { isPlaying := true, position := 46000 }
    rfl (by decide) rfl rfl (by decide)).1

/-! ## C3 — commands with no active app -/

/-- C3 counterexample: the Windows controller's `toggle`, invoked while
`activeApp == null`, still spawns the helper process (backendCalled is
true) and does not return the required
`{success:false, error:"No media app active"}` shape: on a successful
helper call it returns success with an inferred isPlaying. -/
theorem c3_counterexample_windows_toggle_null_app :
    winCommand { currentApp := none, isPlaying := false, position := 0 }
        Command.toggle (Except.ok { success := true, error := none, isPlaying := none }) =
      { result := { success := true, error := none, isPlaying := some true }
        backendCalled := true, playbackFetches := 0 } := by
  rfl

/-- C3 amended: on the macOS controller, every control command (play,
pause, toggle, next, previous) invoked while `activeApp == null`
returns `{success:false, error:"No media app active"}` immediately and
issues no backend call; the Windows controller has no such guard. -/
theorem c3_amended_mac_commands_guard_null_app (s : MacState) (cmd : Command)
    (ctrlErr : Option String) (postFetch : Option PlaybackState)
    (h : s.currentApp = none) :
    macCommand s cmd ctrlErr postFetch =
      { result := { success := false, error := some "No media app active", isPlaying := none }
        backendCalled := false, playbackFetches := 0 } := by
  simp [macCommand, jsFalsy, h]

/-- Witness for the amended C3: `toggle` on the start state. -/
theorem c3_amended_witness :
    macCommand macInit Command.toggle none none =
      { result := { success := false, error := some "No media app active", isPlaying := none }
        backendCalled := false, playbackFetches := 0 } := by
  exact c3_amended_mac_commands_guard_null_app macInit Command.toggle none none rfl

/-! ## C4 — toggle's post-action isPlaying -/

/-- C4 counterexample: a successful Windows `toggle` performs zero
playback-state re-fetches and reports the negation of the cached
`isPlaying` flag — an inferred value, not a re-fetched one. -/
theorem c4_counterexample_windows_toggle_no_refetch :
    winCommand { currentApp := some "Chrome", isPlaying := false, position := 0 }
        Command.toggle (Except.ok { success := true, error := none, isPlaying := none }) =
      { result := { success := true, error := none, isPlaying := some true }
        backendCalled := true, playbackFetches := 0 } := by
  rfl

/-- C4 amended: on the macOS controller, every successful `toggle`
performs one out-of-cycle playback-state re-fetch (after a 100ms wait
in the source) and returns `{success:true, isPlaying:v}` with `v` the
re-fetched post-action value; the Windows controller instead returns
the negation of its cached flag without any re-fetch. -/
theorem c4_amended_mac_toggle_returns_refetched (s : MacState) (a : String)
    (postFetch : Option PlaybackState)
    (happ : s.currentApp = some a) (hne : a ≠ "") :
    macCommand s Command.toggle none postFetch =
      { result := { success := true, error := none
                    isPlaying := some (fetchPlaybackStateResult postFetch).isPlaying }
        backendCalled := true, playbackFetches := 1 } := by
  simp [macCommand, jsFalsy, happ, hne]

/-- Witness for the amended C4: toggling Spotify with the re-fetch
reporting paused. -/
theorem c4_amended_witness :
    macCommand
        { currentTrack := some agnes
          currentState := { isPlaying := true, position := 45000 }
          currentApp := some "Spotify", lastTrackName := some "Agnes" }
        Command.toggle none (some { isPlaying := false, position := 45100 }) =
      { result := { success := true, error := none, isPlaying := some false }
        backendCalled := true, playbackFetches := 1 } := by
  exact c4_amended_mac_toggle_returns_refetched _ "Spotify" _ rfl (by decide)

/-! ## C1 — failure semantics of a poll cycle -/

/-- C1 counterexample: from the reachable state after one good cycle
(Spotify playing at 45000ms), a cycle whose only Adapter failure is the
playback-state call emits a `playback_state_changed` event and changes
the Snapshot's playback state to the catch handler's
`{isPlaying:false, position:0}` — not "no Snapshot change, no event". -/
theorem c1_counterexample_playback_failure_changes_snapshot :
    (checkMediaState (sysRun [SysStep.poll inpGood]).1.ctrl inpFail).events =
        [MediaEvent.playback_state_changed { isPlaying := false, position := 0 }] ∧
      (checkMediaState (sysRun [SysStep.poll inpGood]).1.ctrl inpFail).state.currentState =
        { isPlaying := false, position := 0 } ∧
      (sysRun [SysStep.poll inpGood]).1.ctrl.currentState =
        { isPlaying := true, position := 45000 } := by
  decide

/-- C1 amended: an error thrown inside `checkMediaState` itself is
swallowed with no Snapshot change and no event, but a failing
playback-state Adapter call is converted by its own catch handler into
the sentinel report `{isPlaying:false, position:0}`, which enters the
normal diff: whenever an app is resolved and the Snapshot's playback
state differs from the sentinel, the Snapshot is updated to
`{isPlaying:false, position:0}` and a `playback_state_changed` event is
emitted for that cycle. -/
theorem c1_amended_playback_failure_acts_as_stopped_report
    (s : MacState) (inp : CycleInput) (a : String)
    (hres : inp.resolvedApp = some a) (hne : a ≠ "")
    (hfail : inp.playbackFetch = none)
    (hdiff : s.currentState ≠ { isPlaying := false, position := 0 }) :
    (checkMediaState s inp).state.currentState =
        { isPlaying := false, position := 0 } ∧
      MediaEvent.playback_state_changed { isPlaying := false, position := 0 } ∈
        (checkMediaState s inp).events := by
  have hfalsy : jsFalsy inp.resolvedApp = false := by
    simp [jsFalsy, hres, hne]
  have hpb : s.currentState.isPlaying = true ∨ ¬ s.currentState.position = 0 := by
    by_contra hcon
    push_neg at hcon
    obtain ⟨h1, h2⟩ := hcon
    apply hdiff
    cases hcs : s.currentState with
    | mk ip pos =>
      rw [hcs] at h1 h2
      simp at h1 h2
      rw [h1, h2]
  constructor
  · simp only [checkMediaState, hfalsy, Bool.false_eq_true, if_false,
      fetchPlaybackStateResult, hfail]
    simp
    intro h1 h2
    cases hcs : s.currentState with
    | mk ip pos =>
      rw [hcs] at h1 h2
      simp at h1 h2
      rw [h1, h2]
  · simp only [checkMediaState, hfalsy, Bool.false_eq_true, if_false,
      fetchPlaybackStateResult, hfail]
    simp
    tauto

/-- Witness for the amended C1 at the concrete reachable state. -/
theorem c1_amended_witness :
    (checkMediaState (sysRun [SysStep.poll inpGood]).1.ctrl inpFail).state.currentState =
        { isPlaying := false, position := 0 } ∧
      MediaEvent.playback_state_changed { isPlaying := false, position := 0 } ∈
        (checkMediaState (sysRun [SysStep.poll inpGood]).1.ctrl inpFail).events := by
  exact c1_amended_playback_failure_acts_as_stopped_report _ _ "Spotify"
    rfl (by decide) rfl (by decide)

/-! ## C2 — the isPlaying / activeApp invariant -/

/-- C2: after the reachable event sequence "connect Spotify, start
playing, disconnect", the engine snapshot has `isPlaying = true` while
`activeApp = null` (and `connected = false`): processing
`media_disconnected` does not reset the playing flag, violating the
claimed invariant. -/
theorem c2_disconnect_leaves_isPlaying_true :
    (sysRun [SysStep.poll inpGood, SysStep.poll inpDisc]).1.mi.currentState.isPlaying = true ∧
      (sysRun [SysStep.poll inpGood, SysStep.poll inpDisc]).1.mi.currentApp = none ∧
      (sysRun [SysStep.poll inpGood, SysStep.poll inpDisc]).1.mi.currentState.connected = false := by
  decide

/-! ## C8 — the WebSocket catch-up push -/

/-- C8: for the concrete snapshot "connected, Spotify, playing `agnes`
at 45000ms", the on-connect catch-up push does send, in order,
`connection_status`, `track_changed` and `playback_state_changed`, but
the `playback_state_changed` message carries `position` read from a
field `getFullStatus` does not set (undefined, modelled `none`) instead
of the Snapshot's 45000. -/
theorem c8_ws_catchup_position_missing :
    wsOnConnect (getFullStatus
        { currentTrack := some (agnes, "Spotify")
          currentState := { isPlaying := true, position := 45000, connected := true }
          currentApp := some "Spotify" }) =
      [WsMessage.connection_status true (some "Spotify"),
        WsMessage.track_changed
          { title := "Agnes", artist := "Glass Animals"
            album := "How To Be A Human Being", artwork := none
            duration := 271672, position := 45000 },
        WsMessage.playback_state_changed true none] ∧
      (none : Option Nat) ≠ some 45000 := by
  decide

/-! ## C5 — fingerprint dedup across identical cycles -/

/-- C5 counterexample: two consecutive cycles report the same Spotify
track, yet two `track_changed` events appear in the trace, because the
artwork continuation scheduled by the first cycle re-emits
`track_changed` with the artwork-enriched record. -/
theorem c5_counterexample_artwork_second_track_changed :
    countTrackChanged
        (sysRun [SysStep.poll inpGood, SysStep.artwork 0 (some "art-url"),
          SysStep.poll inpGood]).2 = 2 := by
  decide

/-- The count `countTrackChanged` distributes over trace concatenation. -/
theorem countTrackChanged_append (l1 l2 : List MediaEvent) :
    countTrackChanged (l1 ++ l2) = countTrackChanged l1 + countTrackChanged l2 := by
  simp [countTrackChanged, List.countP_append]

/-- A steady-state cycle: when the resolved app equals the stored app
and the quick track name equals the stored fingerprint, the cycle runs
no full metadata fetch, emits no `track_changed`, and preserves the
stored app and fingerprint. -/
theorem checkMediaState_steady (s : MacState) (inp : CycleInput) (a : String)
    (hres : inp.resolvedApp = some a) (hne : a ≠ "")
    (happ : s.currentApp = some a) (hlast : s.lastTrackName = inp.quickName) :
    (checkMediaState s inp).didFullFetch = false ∧
      countTrackChanged (checkMediaState s inp).events = 0 ∧
      (checkMediaState s inp).state.currentApp = some a ∧
      (checkMediaState s inp).state.lastTrackName = inp.quickName := by
  have hfalsy : jsFalsy inp.resolvedApp = false := by
    simp [jsFalsy, hres, hne]
  have hgd : inp.resolvedApp.getD "" = a := by rw [hres]; rfl
  simp only [checkMediaState, hfalsy, Bool.false_eq_true, if_false, hgd]
  refine ⟨by simp [hlast], ?_, by simp [hlast, happ], by simp [hlast]⟩
  simp [hlast, happ, countTrackChanged]

/-- The first cycle from the start state with a quick track name
available: one full fetch, one `track_changed`, and the app and
fingerprint are stored. -/
theorem checkMediaState_first (inp : CycleInput) (a q : String)
    (hres : inp.resolvedApp = some a) (hne : a ≠ "")
    (hq : inp.quickName = some q) :
    (checkMediaState macInit inp).didFullFetch = true ∧
      countTrackChanged (checkMediaState macInit inp).events = 1 ∧
      (checkMediaState macInit inp).state.currentApp = some a ∧
      (checkMediaState macInit inp).state.lastTrackName = inp.quickName := by
  have hfalsy : jsFalsy inp.resolvedApp = false := by
    simp [jsFalsy, hres, hne]
  have hgd : inp.resolvedApp.getD "" = a := by rw [hres]; rfl
  simp only [checkMediaState, hfalsy, Bool.false_eq_true, if_false, hgd]
  refine ⟨by simp [macInit, hq], ?_, by simp [macInit, hq], by simp [macInit, hq]⟩
  simp [macInit, hq, hasTrackChanged, countTrackChanged]

/-- Iterating steady-state cycles adds no `track_changed` events and no
full fetches. -/
theorem runCycles_steady (inp : CycleInput) (a : String)
    (hres : inp.resolvedApp = some a) (hne : a ≠ "") :
    ∀ n (s : MacState), s.currentApp = some a → s.lastTrackName = inp.quickName →
      countTrackChanged (runCycles s inp n).2.1 = 0 ∧ (runCycles s inp n).2.2 = 0 := by
  intro n
  induction n with
  | zero =>
    intro s _ _
    simp [runCycles, countTrackChanged]
  | succ n ih =>
    intro s happ hlast
    obtain ⟨hf, hc, ha, hl⟩ := checkMediaState_steady s inp a hres hne happ hlast
    obtain ⟨ihc, ihf⟩ := ih (checkMediaState s inp).state ha hl
    simp only [runCycles]
    constructor
    · rw [countTrackChanged_append, hc, ihc]
    · rw [hf, ihf]
      simp

/-- C5 amended: for every N ≥ 1, if the backend reports the same quick
track name for the same (nonempty) resolved app across N consecutive
poll cycles starting from the controller's start state, the polling
cycles emit exactly one `track_changed` event and perform exactly one
full-metadata fetch — the fingerprint comparison skips the fetch on the
other N−1 cycles.  (The asynchronous artwork continuation scheduled by
the first cycle may additionally re-emit one artwork-enriched
`track_changed` for the same track, as the counterexample shows.) -/
theorem c5_amended_polling_emits_once_fetches_once (n : Nat) (a q : String)
    (pf : Option PlaybackState) (tf : Option TrackInfo) (hne : a ≠ "") :
    countTrackChanged
        (runCycles macInit
          { resolvedApp := some a, quickName := some q
            playbackFetch := pf, trackFetch := tf } (n + 1)).2.1 = 1 ∧
      (runCycles macInit
        { resolvedApp := some a, quickName := some q
          playbackFetch := pf, trackFetch := tf } (n + 1)).2.2 = 1 := by
  obtain ⟨hf, hc, ha, hl⟩ := checkMediaState_first
    { resolvedApp := some a, quickName := some q, playbackFetch := pf, trackFetch := tf }
    a q rfl hne rfl
  obtain ⟨hsc, hsf⟩ := runCycles_steady
    { resolvedApp := some a, quickName := some q, playbackFetch := pf, trackFetch := tf }
    a rfl hne n _ ha hl
  simp only [runCycles]
  constructor
  · rw [countTrackChanged_append, hc, hsc]
  · rw [hf, hsf]
    simp

/-- Witness for the amended C5: two cycles of the Spotify/`agnes`
report from the start state. -/
theorem c5_amended_witness :
    countTrackChanged
        (runCycles macInit
          { resolvedApp := some "Spotify", quickName := some "Agnes"
            playbackFetch := some { isPlaying := true, position := 45000 }
            trackFetch := some agnes } 2).2.1 = 1 ∧
      (runCycles macInit
        { resolvedApp := some "Spotify", quickName := some "Agnes"
          playbackFetch := some { isPlaying := true, position := 45000 }
          trackFetch := some agnes } 2).2.2 = 1 := by
  exact c5_amended_polling_emits_once_fetches_once 1 "Spotify" "Agnes"
    (some { isPlaying := true, position := 45000 }) (some agnes) (by decide)

/-! ## C6 — currentTrack non-null only when activeApp non-null -/

/-- A non-falsy app identifier is a `some` of its nonempty payload. -/
theorem jsFalsy_false_getD (o : Option String) (h : jsFalsy o = false) :
    o = some (o.getD "") ∧ o.getD "" ≠ "" := by
  cases o with
  | none => simp [jsFalsy] at h
  | some s =>
    refine ⟨rfl, ?_⟩
    simpa [jsFalsy] using h

/-- The inductive invariant of the composed system: the controller's
track implies its app; the controller's app implies the engine's app;
and the engine's track implies the engine's app. -/
def SysInv (s : SysState) : Prop :=
  (s.ctrl.currentTrack.isSome = true → s.ctrl.currentApp.isSome = true) ∧
    (s.ctrl.currentApp.isSome = true → s.mi.currentApp.isSome = true) ∧
    (s.mi.currentTrack.isSome = true → s.mi.currentApp.isSome = true)

/-- Every system step preserves `SysInv`. -/
theorem sysInv_step (p : SysState × List MediaEvent) (st : SysStep)
    (h : SysInv p.1) : SysInv (sysStepRun p st).1 := by
  obtain ⟨h1, h2, h3⟩ := h
  cases st with
  | poll inp =>
    by_cases hf : jsFalsy inp.resolvedApp
    · by_cases hc : p.1.ctrl.currentApp.isSome
      · simp [sysStepRun, checkMediaState, hf, hc, deliver, handlePlatformEvent, SysInv]
      · simp only [sysStepRun, checkMediaState, hf, if_true]
        simp only [hc, Bool.false_eq_true, if_false]
        simpa [deliver, SysInv] using ⟨h1, h2, h3⟩
    · have hf2 : jsFalsy inp.resolvedApp = false := by
        simpa using hf
      obtain ⟨hsome, hane⟩ := jsFalsy_false_getD inp.resolvedApp hf2
      by_cases c1 : inp.quickName = p.1.ctrl.lastTrackName
      · by_cases c2 : p.1.ctrl.currentApp = some (inp.resolvedApp.getD "")
        · by_cases c4 : p.1.ctrl.currentState.isPlaying ≠
              (fetchPlaybackStateResult inp.playbackFetch).isPlaying ∨
              p.1.ctrl.currentState.position ≠
                (fetchPlaybackStateResult inp.playbackFetch).position
          · refine ⟨by simp [sysStepRun, checkMediaState, hf2, c1, c2, c4], ?_, ?_⟩
            · intro _
              simp only [sysStepRun, checkMediaState, hf2, Bool.false_eq_true, if_false]
              simp [c1, c2, c4, deliver, handlePlatformEvent]
              exact h2 (by simp [c2])
            · intro hmt
              simp only [sysStepRun, checkMediaState, hf2, Bool.false_eq_true, if_false]
                at hmt ⊢
              simp [c1, c2, c4, deliver, handlePlatformEvent] at hmt ⊢
              exact h3 hmt
          · refine ⟨by simp [sysStepRun, checkMediaState, hf2, c1, c2, c4], ?_, ?_⟩
            · intro _
              simp only [sysStepRun, checkMediaState, hf2, Bool.false_eq_true, if_false]
              simp [c1, c2, c4, deliver, handlePlatformEvent]
              exact h2 (by simp [c2])
            · intro hmt
              simp only [sysStepRun, checkMediaState, hf2, Bool.false_eq_true, if_false]
                at hmt ⊢
              simp [c1, c2, c4, deliver, handlePlatformEvent] at hmt ⊢
              exact h3 hmt
        · refine ⟨by simp [sysStepRun, checkMediaState, hf2, c1, c2], ?_, ?_⟩
          · intro _
            simp only [sysStepRun, checkMediaState, hf2, Bool.false_eq_true, if_false]
            simp [c1, c2, deliver, handlePlatformEvent, hane]
            split <;> simp [handlePlatformEvent]
          · intro hmt
            simp only [sysStepRun, checkMediaState, hf2, Bool.false_eq_true, if_false]
              at hmt ⊢
            simp [c1, c2, deliver, handlePlatformEvent, hane] at hmt ⊢
            split at hmt <;> split <;> simp [handlePlatformEvent]
      · by_cases c3 : hasTrackChanged p.1.ctrl (fetchTrackInfoResult inp.trackFetch)
        · by_cases c2 : p.1.ctrl.currentApp = some (inp.resolvedApp.getD "")
          · refine ⟨by simp [sysStepRun, checkMediaState, hf2, c1, c2, c3], ?_, ?_⟩
            · intro _
              simp only [sysStepRun, checkMediaState, hf2, Bool.false_eq_true, if_false]
              simp [c1, c2, c3, deliver, handlePlatformEvent]
              split <;> simpa [handlePlatformEvent] using h2 (by simp [c2])
            · intro _
              simp only [sysStepRun, checkMediaState, hf2, Bool.false_eq_true, if_false]
              simp [c1, c2, c3, deliver, handlePlatformEvent]
              split <;> simpa [handlePlatformEvent] using h2 (by simp [c2])
          · refine ⟨by simp [sysStepRun, checkMediaState, hf2, c1, c2, c3], ?_, ?_⟩
            · intro _
              simp only [sysStepRun, checkMediaState, hf2, Bool.false_eq_true, if_false]
              simp [c1, c2, c3, deliver, handlePlatformEvent, hane]
              split <;> simp [handlePlatformEvent]
            · intro _
              simp only [sysStepRun, checkMediaState, hf2, Bool.false_eq_true, if_false]
              simp [c1, c2, c3, deliver, handlePlatformEvent, hane]
              split <;> simp [handlePlatformEvent]
        · by_cases c2 : p.1.ctrl.currentApp = some (inp.resolvedApp.getD "")
          · refine ⟨by simp [sysStepRun, checkMediaState, hf2, c1, c2, c3], ?_, ?_⟩
            · intro _
              simp only [sysStepRun, checkMediaState, hf2, Bool.false_eq_true, if_false]
              simp [c1, c2, c3, deliver, handlePlatformEvent]
              split <;> simpa [handlePlatformEvent] using h2 (by simp [c2])
            · intro hmt
              simp only [sysStepRun, checkMediaState, hf2, Bool.false_eq_true, if_false]
                at hmt ⊢
              simp [c1, c2, c3, deliver, handlePlatformEvent] at hmt ⊢
              by_cases c4 : ¬p.1.ctrl.currentState.isPlaying =
                  (fetchPlaybackStateResult inp.playbackFetch).isPlaying ∨
                  ¬p.1.ctrl.currentState.position =
                    (fetchPlaybackStateResult inp.playbackFetch).position
              · simp [c4, handlePlatformEvent] at hmt ⊢
                exact h3 hmt
              · simp [c4] at hmt ⊢
                exact h3 hmt
          · refine ⟨by simp [sysStepRun, checkMediaState, hf2, c1, c2, c3], ?_, ?_⟩
            · intro _
              simp only [sysStepRun, checkMediaState, hf2, Bool.false_eq_true, if_false]
              simp [c1, c2, c3, deliver, handlePlatformEvent, hane]
              split <;> simp [handlePlatformEvent]
            · intro hmt
              simp only [sysStepRun, checkMediaState, hf2, Bool.false_eq_true, if_false]
                at hmt ⊢
              simp [c1, c2, c3, deliver, handlePlatformEvent, hane] at hmt ⊢
              by_cases c4 : ¬p.1.ctrl.currentState.isPlaying =
                  (fetchPlaybackStateResult inp.playbackFetch).isPlaying ∨
                  ¬p.1.ctrl.currentState.position =
                    (fetchPlaybackStateResult inp.playbackFetch).position
              · simp [c4, handlePlatformEvent]
              · simp [c4]
  | artwork i url =>
    cases hg : p.1.pending[i]? with
    | none =>
      have hsame : (sysStepRun p (SysStep.artwork i url)).1 = p.1 := by
        simp [sysStepRun, hg]
      unfold SysInv
      rw [hsame]
      exact ⟨h1, h2, h3⟩
    | some task =>
      cases url with
      | none =>
        have hctrl : (sysStepRun p (SysStep.artwork i none)).1.ctrl = p.1.ctrl := by
          simp [sysStepRun, hg, artworkContinuation]
        have hmi : (sysStepRun p (SysStep.artwork i none)).1.mi = p.1.mi := by
          simp [sysStepRun, hg, artworkContinuation, deliver]
        unfold SysInv
        rw [hctrl, hmi]
        exact ⟨h1, h2, h3⟩
      | some u =>
        cases hct : p.1.ctrl.currentTrack with
        | none =>
          have hctrl : (sysStepRun p (SysStep.artwork i (some u))).1.ctrl = p.1.ctrl := by
            simp [sysStepRun, hg, artworkContinuation, hct]
          have hmi : (sysStepRun p (SysStep.artwork i (some u))).1.mi = p.1.mi := by
            simp [sysStepRun, hg, artworkContinuation, hct, deliver]
          unfold SysInv
          rw [hctrl, hmi]
          exact ⟨h1, h2, h3⟩
        | some cur =>
          by_cases hu : u ≠ "" ∧ cur.title = task.track.title
          · have hca : p.1.ctrl.currentApp.isSome = true := h1 (by simp [hct])
            have hma := h2 hca
            have hctrlapp : (sysStepRun p (SysStep.artwork i (some u))).1.ctrl.currentApp
                = p.1.ctrl.currentApp := by
              simp [sysStepRun, hg, artworkContinuation, hct, hu]
            have hmiapp : (sysStepRun p (SysStep.artwork i (some u))).1.mi.currentApp
                = p.1.mi.currentApp := by
              simp [sysStepRun, hg, artworkContinuation, hct, hu, deliver,
                handlePlatformEvent]
            unfold SysInv
            rw [hctrlapp, hmiapp]
            exact ⟨fun _ => hca, fun _ => hma, fun _ => hma⟩
          · have hctrl : (sysStepRun p (SysStep.artwork i (some u))).1.ctrl = p.1.ctrl := by
              simp [sysStepRun, hg, artworkContinuation, hct, hu]
            have hmi : (sysStepRun p (SysStep.artwork i (some u))).1.mi = p.1.mi := by
              simp [sysStepRun, hg, artworkContinuation, hct, hu, deliver]
            unfold SysInv
            rw [hctrl, hmi]
            exact ⟨h1, h2, h3⟩

/-- The invariant `SysInv` holds in every reachable state of the composed system. -/
theorem sysInv_run (steps : List SysStep) : SysInv (sysRun steps).1 := by
  have key : ∀ p : SysState × List MediaEvent, SysInv p.1 →
      SysInv (steps.foldl sysStepRun p).1 := by
    induction steps with
    | nil => intro p h; exact h
    | cons st rest ih =>
      intro p h
      exact ih _ (sysInv_step p st h)
  refine key (sysInit, []) ?_
  simp [SysInv, sysInit, macInit, miInit]

/-- C6: in every state of the composed system reachable by any sequence
of poll cycles and artwork-continuation completions (including a
continuation completing after a disconnect), the engine snapshot's
`currentTrack` is non-null only when its `activeApp` is non-null. -/
theorem c6_track_implies_app (steps : List SysStep)
    (h : (sysRun steps).1.mi.currentTrack.isSome = true) :
    (sysRun steps).1.mi.currentApp.isSome = true :=
  (sysInv_run steps).2.2 h

/-- Witness for C6: after one good Spotify cycle the snapshot has a
track, and the theorem yields a non-null active app. -/
theorem c6_witness :
    (sysRun [SysStep.poll inpGood]).1.mi.currentTrack.isSome = true ∧
      (sysRun [SysStep.poll inpGood]).1.mi.currentApp.isSome = true :=
  ⟨by decide, c6_track_implies_app [SysStep.poll inpGood] (by decide)⟩

/-! ## C9 — auto mode never resolves to null -/

/-- The normalized preferred-app setting is never the empty string. -/
theorem normalizedPreferred_ne_empty (o : Option String) : normalizedPreferred o ≠ "" := by
  cases o with
  | none => simp [normalizedPreferred]
  | some s =>
    simp only [normalizedPreferred]
    split <;> simp_all

/-- A `media_disconnected` event can only come from the disconnect
branch, i.e. from a falsy resolved app. -/
theorem mem_disconnected_falsy (s : MacState) (inp : CycleInput)
    (h : MediaEvent.media_disconnected ∈ (checkMediaState s inp).events) :
    jsFalsy inp.resolvedApp = true := by
  by_cases hf : jsFalsy inp.resolvedApp
  · exact hf
  · exfalso
    have hf2 : jsFalsy inp.resolvedApp = false := by
      simpa using hf
    simp only [checkMediaState, hf2, Bool.false_eq_true, if_false,
      List.mem_append] at h
    rcases h with (h | h) | h
    · split at h <;> simp at h
    · split at h <;> simp at h
    · split at h <;> simp at h

/-- In auto mode, a non-throwing `getCurrentMediaApp` never yields a
falsy app: the scan falls back to "System". -/
theorem getCurrentMediaApp_auto_not_falsy (cur : Option String) (inp : AppResolveInput)
    (hauto : normalizedPreferred inp.cfgPreferred = "auto") (hth : inp.throws = false) :
    jsFalsy (getCurrentMediaApp cur inp) = false := by
  simp only [getCurrentMediaApp, hth, Bool.false_eq_true, if_false, hauto]
  simp only [ne_eq, not_true_eq_false, if_false]
  cases cur with
  | none =>
    by_cases h1 : inp.appPlaying "Spotify"
    · simp [h1, jsFalsy]
    · by_cases h2 : inp.appPlaying "Music"
      · simp [h1, h2, jsFalsy]
      · simp [h1, h2, jsFalsy]
  | some c =>
    by_cases hcg : c ≠ "" ∧ c ≠ "System" ∧ inp.appPlaying c
    · simp [hcg, jsFalsy, hcg.1]
    · by_cases h1 : inp.appPlaying "Spotify"
      · simp [hcg, h1, jsFalsy]
      · by_cases h2 : inp.appPlaying "Music"
        · simp [hcg, h1, h2, jsFalsy]
        · simp [hcg, h1, h2, jsFalsy]

/-- C9: whenever a poll cycle with full app resolution emits
`media_disconnected`, either the resolution threw internally, or a
specific preferred app (not "auto") is configured and its presence
probe reported inactive.  In particular, in auto mode a normally
completing resolution never yields null (it falls back to "System"). -/
theorem c9_disconnect_only_with_preferred_or_throw (s : MacState)
    (res : AppResolveInput) (q : Option String) (pf : Option PlaybackState)
    (tf : Option TrackInfo)
    (h : MediaEvent.media_disconnected ∈ (cycleWithResolution s res q pf tf).events) :
    res.throws = true ∨
      (normalizedPreferred res.cfgPreferred ≠ "auto" ∧
        res.appPlaying (normalizedPreferred res.cfgPreferred) = false) := by
  simp only [cycleWithResolution] at h
  have hfal : jsFalsy (getCurrentMediaApp s.currentApp res) = true :=
    mem_disconnected_falsy s _ h
  by_cases hth : res.throws
  · exact Or.inl (by simpa using hth)
  · right
    have hth2 : res.throws = false := by
      simpa using hth
    by_cases hauto : normalizedPreferred res.cfgPreferred = "auto"
    · rw [getCurrentMediaApp_auto_not_falsy s.currentApp res hauto hth2] at hfal
      exact absurd hfal (by simp)
    · refine ⟨hauto, ?_⟩
      by_cases hp : res.appPlaying (normalizedPreferred res.cfgPreferred)
      · exfalso
        have hres : getCurrentMediaApp s.currentApp res =
            some (normalizedPreferred res.cfgPreferred) := by
          simp [getCurrentMediaApp, hth2, hauto, hp]
        rw [hres] at hfal
        simp [jsFalsy] at hfal
        exact normalizedPreferred_ne_empty res.cfgPreferred hfal
      · simpa using hp

/-- Resolution input of the C9 witness: preferred app "Music"
configured, every presence probe reporting inactive, no internal
throw. -/
def res9 : AppResolveInput :=
  { cfgPreferred := some "Music", appPlaying := fun _ => false, throws := false }

/-- Witness for C9: a configured preferred app "Music" whose probe
reports inactive produces a disconnect from a connected state, and the
theorem attributes it to the configured-and-inactive case. -/
theorem c9_witness :
    res9.throws = true ∨
      (normalizedPreferred res9.cfgPreferred ≠ "auto" ∧
        res9.appPlaying (normalizedPreferred res9.cfgPreferred) = false) :=
  c9_disconnect_only_with_preferred_or_throw
    { currentTrack := some agnes
      currentState := { isPlaying := true, position := 45000 }
      currentApp := some "Spotify", lastTrackName := some "Agnes" }
    res9 none none none (by decide)

end MCB
